import Mathlib

/-!
Verification of the GPU sniping scheduler (`sniping.py`) against its
natural-language specification.  The Python source is shallowly embedded:
pure fragments become Lean functions, the threaded attempt executor becomes
a labelled transition system, and the outer wave loop becomes a fuel-indexed
recursion.  External effects (the `gcloud` subprocess, JSON parsing) are
inputs to the embedded functions.
-/

namespace Sniping

/-! ## Python string primitives

`pyIn needle hay` models Python's substring test `needle in hay`;
`pyLower` models `str.lower()` (ASCII, which is all that the marker
strings need); `pySplit` models `str.split("/")` for a one-character
separator; `normalizeZone` models `item["zone"].split("/")[-1]`
(line 71 of the source). -/

def leadsList : List Char → List Char → Bool
  | [], _ => true
  | _ :: _, [] => false
  | a :: as, b :: bs => a == b && leadsList as bs

def subList (needle : List Char) : List Char → Bool
  | [] => leadsList needle []
  | b :: bs => leadsList needle (b :: bs) || subList needle bs

def pyIn (needle hay : String) : Bool :=
  subList needle.data hay.data

def pyLower (s : String) : String :=
  ⟨s.data.map Char.toLower⟩

def splitCharAux (sep : Char) : List Char → List Char → List String
  | [], acc => [⟨acc.reverse⟩]
  | c :: cs, acc =>
    if c == sep then ⟨acc.reverse⟩ :: splitCharAux sep cs []
    else splitCharAux sep cs (c :: acc)

def pySplit (s : String) (sep : Char) : List String :=
  splitCharAux sep s.data []

def lastElem : List String → String
  | [] => ""
  | [a] => a
  | _ :: b :: bs => lastElem (b :: bs)

def normalizeZone (z : String) : String :=
  lastElem (pySplit z '/')

/-! ## Outcome classifier

The classifier is the `if`/`elif` chain of `create_vm`, source lines
102-116.  `exitSuccess` stands for `result.returncode == 0`; the five
constructors record which branch (and hence which log message) runs:
line 110 capacity, line 112 quota, line 114 per-candidate fatal,
line 116 generic.  Note that line 109 tests `err` itself while lines
111 and 113 test `err.lower()`. -/

inductive Outcome
  | success
  | retryCapacity
  | retryQuota
  | fatalCandidate
  | retryGeneric
deriving DecidableEq

def Outcome.isRetryable : Outcome → Bool
  | .retryCapacity => true
  | .retryQuota => true
  | .retryGeneric => true
  | _ => false

def classify (exitSuccess : Bool) (err : String) : Outcome :=
  if exitSuccess then .success
  else if pyIn "resources" err || pyIn "exhausted" err || pyIn "not available" err then
    .retryCapacity
  else if pyIn "quota" (pyLower err) then .retryQuota
  else if pyIn "invalid" (pyLower err) || pyIn "not found" (pyLower err) then
    .fatalCandidate
  else .retryGeneric

/-- Modelled from the spec, section 4.2: the reference classifier, which
inspects `stderrText` case-insensitively for every marker group, in
priority order.  Used only as the comparison point for claim C3. -/
def classifySpec (exitSuccess : Bool) (err : String) : Outcome :=
  if exitSuccess then .success
  else if pyIn "resources" (pyLower err) || pyIn "exhausted" (pyLower err) ||
          pyIn "not available" (pyLower err) then
    .retryCapacity
  else if pyIn "quota" (pyLower err) then .retryQuota
  else if pyIn "invalid" (pyLower err) || pyIn "not found" (pyLower err) then
    .fatalCandidate
  else .retryGeneric

/-- Claim C3 as stated: the code's classifier coincides with the spec's
fully case-insensitive reference classifier on every input. -/
def C3Stated : Prop := ∀ b s, classify b s = classifySpec b s

/-- Modelled from the spec, section 4.2, amended per the correction of
claim C3: the same priority chain, except that the first marker group
("resources" / "exhausted" / "not available") is matched case-sensitively
against the raw stderr text, exactly as source line 109 does; the "quota"
and "invalid" / "not found" groups remain case-insensitive. -/
def classifySpecCS (exitSuccess : Bool) (err : String) : Outcome :=
  if exitSuccess then .success
  else if pyIn "resources" err || pyIn "exhausted" err || pyIn "not available" err then
    .retryCapacity
  else if pyIn "quota" (pyLower err) then .retryQuota
  else if pyIn "invalid" (pyLower err) || pyIn "not found" (pyLower err) then
    .fatalCandidate
  else .retryGeneric

/-! ## Discovery layer

`run_gcloud_json` (source lines 38-45) runs the discovery command with
`check=True` and swallows only `subprocess.CalledProcessError`; a missing
`gcloud` executable raises `FileNotFoundError` out of `subprocess.run`,
and malformed stdout raises `json.JSONDecodeError` out of `json.loads`;
neither is caught.  The subprocess outcome and the JSON parser are inputs
of the embedding. -/

structure DiscItem where
  zone : Option String
deriving DecidableEq

inductive SubprocOutcome
  | completed (returncode : Nat) (stdout : String)
  | notFound
deriving DecidableEq

inductive PyExn
  | fileNotFoundError
  | jsonDecodeError
deriving DecidableEq

inductive PyResult (α : Type)
  | ok (a : α)
  | exn (e : PyExn)
deriving DecidableEq

def run_gcloud_json (proc : SubprocOutcome)
    (parse : String → Option (List DiscItem)) : PyResult (List DiscItem) :=
  match proc with
  | .notFound => .exn .fileNotFoundError
  | .completed rc out =>
    if rc == 0 then
      match parse out with
      | some items => .ok items
      | none => .exn .jsonDecodeError
    else .ok []

/-! ## Candidate space builder

`zonesOf` is the body of `get_zones_for_gpu` after the query returned
(source lines 71-72): keep items that carry a `"zone"` field, strip the
URL qualifier, and return `sorted(set(...))`, modelled as dedup followed
by insertion sort in the string order. -/

def strLe (a b : String) : Bool := !decide (b < a)

def insertStr (a : String) : List String → List String
  | [] => [a]
  | b :: bs => if strLe a b then a :: b :: bs else b :: insertStr a bs

def sortStr : List String → List String
  | [] => []
  | a :: as => insertStr a (sortStr as)

def zonesOf (data : List DiscItem) : List String :=
  sortStr (((data.filterMap DiscItem.zone).map normalizeZone).dedup)

def get_zones_for_gpu (proc : SubprocOutcome)
    (parse : String → Option (List DiscItem)) : PyResult (List String) :=
  match run_gcloud_json proc parse with
  | .ok data => .ok (zonesOf data)
  | .exn e => .exn e

/-- The static GPU model to machine type mapping, source lines 20-23. -/
def GPU_CONFIG : List (String × String) :=
  [("nvidia-tesla-t4", "n1-standard-4"), ("nvidia-l4", "g2-standard-4")]

/-- The discovery loop of `main` (source lines 125-129): for each key of
`GPU_CONFIG`, in order, extend the task list with a `(zone, gpu)` pair per
discovered zone.  `disc` gives the parsed discovery response per GPU kind
(a swallowed discovery failure appears here as the empty response, which
is what `run_gcloud_json` returns for it). -/
def buildTasks (disc : String → List DiscItem) : List (String × String) :=
  (GPU_CONFIG.map Prod.fst).flatMap fun g => (zonesOf (disc g)).map fun z => (z, g)

/-- Claim C5 as stated: every failure of the discovery query is swallowed
and an (empty) list is returned; no error ever propagates. -/
def C5Stated : Prop :=
  ∀ proc parse, ∃ items, run_gcloud_json proc parse = PyResult.ok items

/-! ## Wave scheduler

The outer loop of `main` (source lines 137-170), at wave granularity.
Each wave's collective effect is an input: either some attempt succeeded
(it set `stop_event`, line 103), or a worker raised `FileNotFoundError`
and the handler on lines 153-157 set `stop_event`, or every attempt came
back unsuccessful and the flag stayed clear.  After a wave the loop
breaks when the flag is set (line 161-162), else breaks when the retry
cap is configured and reached (lines 164-166), else sleeps `RETRY_DELAY`
seconds (lines 168-170) and loops.  `main` exits the process with code 1
only on the empty-candidate check (lines 131-133); every loop exit path
falls off the end of `main`, which is process exit code 0.  The fuel
argument bounds the unrolling of the unbounded `while`; `none` means the
loop is still running after `fuel` waves. -/

inductive WaveResult
  | success
  | infraMissing
  | allRetryable
deriving DecidableEq

inductive TermReason
  | success
  | infraMissing
  | exhausted
  | noCandidates
deriving DecidableEq

inductive MainEvent
  | wave (n : Nat)
  | sleep (secs : Nat)
deriving DecidableEq

structure RunRes where
  reason : TermReason
  exitCode : Nat
  events : List MainEvent
deriving DecidableEq

def mainLoop (mr : Int) (d : Nat) (waves : Nat → WaveResult) :
    Nat → Nat → Option (TermReason × List MainEvent)
  | 0, _ => none
  | fuel + 1, count =>
    let c := count + 1
    match waves c with
    | .success => some (.success, [.wave c])
    | .infraMissing => some (.infraMissing, [.wave c])
    | .allRetryable =>
      if mr ≠ -1 ∧ (c : Int) ≥ mr then some (.exhausted, [.wave c])
      else
        match mainLoop mr d waves fuel c with
        | some (r, evs) => some (r, .wave c :: .sleep d :: evs)
        | none => none

def mainModel (tasks : List (String × String)) (mr : Int) (d : Nat)
    (waves : Nat → WaveResult) (fuel : Nat) : Option RunRes :=
  if tasks = [] then some ⟨.noCandidates, 1, []⟩
  else
    match mainLoop mr d waves fuel 0 with
    | some (r, evs) => some ⟨r, 0, evs⟩
    | none => none

/-- Claim C4 as stated: an infrastructure-missing error aborts all
remaining waves immediately and the process exits non-zero. -/
def C4Stated : Prop :=
  ∀ (tasks : List (String × String)) (mr : Int) (d : Nat)
    (waves : Nat → WaveResult) (fuel : Nat) (res : RunRes),
    tasks ≠ [] → waves 1 = WaveResult.infraMissing →
    mainModel tasks mr d waves fuel = some res →
    res.events = [MainEvent.wave 1] ∧ res.exitCode ≠ 0

/-! ## Attempt executor and cancellation signal

A labelled transition system over the threads of one wave.  Each of the
`n` worker threads runs `create_vm` (source lines 74-117); the main
thread contributes the `FileNotFoundError` handler of lines 153-157.
The input `inp i` fixes what the blocking `subprocess.run` call on line
97 does for thread `i`: either it completes with a return code and
stderr text, or it raises `FileNotFoundError` because `gcloud` is
missing.  Phases follow the source line by line:

* `entry`        — before the `stop_event.is_set()` check on line 76;
* `running`      — inside the blocking call, lines 82-97;
* `returned`     — the call returned, before the re-check on line 99;
* `checkedClear` — the line-99 re-check observed the flag clear, before
                   the `returncode` test on line 102;
* `finished o`   — `create_vm` returned (or raised), with outcome `o`:
  `skipped` is the early `return False` on line 77, `discarded` the
  `return False` on line 100, `success` the line 102-106 branch (which
  performs `stop_event.set()`), `failed` the line 107-117 branch, and
  `raised` a propagated `FileNotFoundError`.

The flag (`stop_event`) is only ever assigned `true`, by the success
branch (line 103) and by the main-thread handler (line 155). -/

inductive CallRes
  | ok (returncode : Nat) (stderr : String)
  | fileNotFound
deriving DecidableEq

inductive AttemptOutcome
  | skipped
  | discarded
  | success
  | failed
  | raised
deriving DecidableEq

inductive Phase
  | entry
  | running
  | returned
  | checkedClear
  | finished (o : AttemptOutcome)
deriving DecidableEq

structure SnipeState (n : Nat) where
  stopEvent : Bool
  phase : Fin n → Phase

inductive SLabel (n : Nat)
  | entrySkip (i : Fin n)
  | entryGo (i : Fin n)
  | callRaise (i : Fin n)
  | callRet (i : Fin n)
  | recheckStop (i : Fin n)
  | recheckGo (i : Fin n)
  | winSet (i : Fin n)
  | failKeep (i : Fin n)
  | handleRaise (i : Fin n)
deriving DecidableEq

inductive SnipeStep {n : Nat} (inp : Fin n → CallRes) :
    SLabel n → SnipeState n → SnipeState n → Prop
  | entrySkip (i : Fin n) (s s' : SnipeState n)
      (h1 : s.phase i = .entry) (h2 : s.stopEvent = true)
      (hs : s'.stopEvent = s.stopEvent)
      (hp : s'.phase = Function.update s.phase i (.finished .skipped)) :
      SnipeStep inp (.entrySkip i) s s'
  | entryGo (i : Fin n) (s s' : SnipeState n)
      (h1 : s.phase i = .entry) (h2 : s.stopEvent = false)
      (hs : s'.stopEvent = s.stopEvent)
      (hp : s'.phase = Function.update s.phase i .running) :
      SnipeStep inp (.entryGo i) s s'
  | callRaise (i : Fin n) (s s' : SnipeState n)
      (h1 : s.phase i = .running) (h2 : inp i = .fileNotFound)
      (hs : s'.stopEvent = s.stopEvent)
      (hp : s'.phase = Function.update s.phase i (.finished .raised)) :
      SnipeStep inp (.callRaise i) s s'
  | callRet (i : Fin n) (s s' : SnipeState n) (rc : Nat) (err : String)
      (h1 : s.phase i = .running) (h2 : inp i = .ok rc err)
      (hs : s'.stopEvent = s.stopEvent)
      (hp : s'.phase = Function.update s.phase i .returned) :
      SnipeStep inp (.callRet i) s s'
  | recheckStop (i : Fin n) (s s' : SnipeState n)
      (h1 : s.phase i = .returned) (h2 : s.stopEvent = true)
      (hs : s'.stopEvent = s.stopEvent)
      (hp : s'.phase = Function.update s.phase i (.finished .discarded)) :
      SnipeStep inp (.recheckStop i) s s'
  | recheckGo (i : Fin n) (s s' : SnipeState n)
      (h1 : s.phase i = .returned) (h2 : s.stopEvent = false)
      (hs : s'.stopEvent = s.stopEvent)
      (hp : s'.phase = Function.update s.phase i .checkedClear) :
      SnipeStep inp (.recheckGo i) s s'
  | winSet (i : Fin n) (s s' : SnipeState n) (err : String)
      (h1 : s.phase i = .checkedClear) (h2 : inp i = .ok 0 err)
      (hs : s'.stopEvent = true)
      (hp : s'.phase = Function.update s.phase i (.finished .success)) :
      SnipeStep inp (.winSet i) s s'
  | failKeep (i : Fin n) (s s' : SnipeState n) (rc : Nat) (err : String)
      (h1 : s.phase i = .checkedClear) (h2 : inp i = .ok rc err) (h3 : rc ≠ 0)
      (hs : s'.stopEvent = s.stopEvent)
      (hp : s'.phase = Function.update s.phase i (.finished .failed)) :
      SnipeStep inp (.failKeep i) s s'
  | handleRaise (i : Fin n) (s s' : SnipeState n)
      (h1 : s.phase i = .finished .raised)
      (hs : s'.stopEvent = true)
      (hp : s'.phase = s.phase) :
      SnipeStep inp (.handleRaise i) s s'

def initState (n : Nat) : SnipeState n :=
  ⟨false, fun _ => .entry⟩

inductive Reaches {n : Nat} (inp : Fin n → CallRes) :
    SnipeState n → SnipeState n → Prop
  | refl (s : SnipeState n) : Reaches inp s s
  | tail {s t u : SnipeState n} (l : SLabel n) :
      Reaches inp s t → SnipeStep inp l t u → Reaches inp s u

/-- Claim C1 as stated: in every execution, the only step that flips the
cancellation flag from unset to set is a success set — an attempt that
observed a zero exit status. -/
def C1Stated : Prop :=
  ∀ (n : Nat) (inp : Fin n → CallRes) (l : SLabel n) (s s' : SnipeState n),
    Reaches inp (initState n) s → SnipeStep inp l s s' →
    s.stopEvent = false → s'.stopEvent = true →
    ∃ i : Fin n, l = SLabel.winSet i

/-- The `GPU_CONFIG[gpu_type]` dictionary access on source line 79;
`none` models a Python `KeyError`. -/
def machineTypeFor (gpu : String) : Option String :=
  GPU_CONFIG.lookup gpu

/-! Concrete instances used by counterexamples and witnesses. -/

def inpFNF : Fin 1 → CallRes := fun _ => .fileNotFound

def stRun : SnipeState 1 := ⟨false, fun _ => .running⟩

def stRaised : SnipeState 1 := ⟨false, fun _ => .finished .raised⟩

def stSet : SnipeState 1 := ⟨true, fun _ => .finished .raised⟩

def stEntrySet : SnipeState 1 := ⟨true, fun _ => .entry⟩

def stSkipped : SnipeState 1 := ⟨true, fun _ => .finished .skipped⟩

def discOne : String → List DiscItem := fun _ => [⟨some "europe-west1-b"⟩]

def tasksOne : List (String × String) := [("europe-west1-b", "nvidia-l4")]

/-! ## Helper lemmas -/

theorem splitCharAux_ne_nil (sep : Char) (l acc : List Char) :
    splitCharAux sep l acc ≠ [] := by
  induction l generalizing acc with
  | nil => simp [splitCharAux]
  | cons c cs ih =>
    by_cases h : c == sep <;> simp [splitCharAux, h, ih]

theorem lastElem_cons (x : String) (l : List String) (h : l ≠ []) :
    lastElem (x :: l) = lastElem l := by
  cases l with
  | nil => exact absurd rfl h
  | cons y ys => rfl

theorem splitCharAux_no_sep (sep : Char) (l acc : List Char) (h : sep ∉ l) :
    splitCharAux sep l acc = [⟨acc.reverse ++ l⟩] := by
  induction l generalizing acc with
  | nil => simp [splitCharAux]
  | cons c cs ih =>
    have hc : (c == sep) = false := by
      simp only [List.mem_cons, not_or] at h
      simp [beq_iff_eq]
      exact fun hcc => h.1 hcc.symm
    rw [splitCharAux]
    rw [if_neg (by simp [hc])]
    rw [ih _ (by simp only [List.mem_cons, not_or] at h; exact h.2)]
    simp

theorem lastElem_split_append (sep : Char) (ys : List Char) :
    ∀ (xs acc : List Char),
      lastElem (splitCharAux sep (xs ++ sep :: ys) acc) =
      lastElem (splitCharAux sep ys []) := by
  intro xs
  induction xs with
  | nil =>
    intro acc
    rw [List.nil_append, splitCharAux]
    simp only [beq_self_eq_true, if_pos]
    exact lastElem_cons _ _ (splitCharAux_ne_nil sep ys [])
  | cons x xs ih =>
    intro acc
    rw [List.cons_append, splitCharAux]
    by_cases hx : x == sep
    · rw [if_pos hx]
      rw [lastElem_cons _ _ (splitCharAux_ne_nil _ _ _)]
      exact ih []
    · rw [if_neg hx]
      exact ih _

theorem normalizeZone_strip (s t : String) (h : '/' ∉ t.data) :
    normalizeZone (s ++ "/" ++ t) = t := by
  have hd : (s ++ "/" ++ t).data = s.data ++ '/' :: t.data := by
    simp [String.data_append]
  rw [normalizeZone, pySplit, hd, lastElem_split_append]
  rw [splitCharAux_no_sep _ _ _ h]
  rfl

theorem insertStr_perm (a : String) (l : List String) :
    (insertStr a l).Perm (a :: l) := by
  induction l with
  | nil => exact List.Perm.refl _
  | cons b bs ih =>
    rw [insertStr]
    by_cases h : strLe a b
    · rw [if_pos h]
    · rw [if_neg h]
      exact (ih.cons b).trans (List.Perm.swap a b bs)

theorem sortStr_perm (l : List String) : (sortStr l).Perm l := by
  induction l with
  | nil => exact List.Perm.refl _
  | cons a as ih => exact (insertStr_perm a (sortStr as)).trans (ih.cons a)

theorem zonesOf_nodup (data : List DiscItem) : (zonesOf data).Nodup :=
  (sortStr_perm _).symm.nodup (List.nodup_dedup _)

theorem buildTasks_nodup (disc : String → List DiscItem) :
    (buildTasks disc).Nodup := by
  have h1 := zonesOf_nodup (disc "nvidia-tesla-t4")
  have h2 := zonesOf_nodup (disc "nvidia-l4")
  have hinj : ∀ g : String, Function.Injective (fun z => ((z, g) : String × String)) := by
    intro g z z' h
    exact congrArg Prod.fst h
  simp only [buildTasks, GPU_CONFIG, List.map_cons, List.map_nil, List.flatMap_cons,
    List.flatMap_nil, List.append_nil]
  rw [List.nodup_append]
  refine ⟨h1.map (hinj _), h2.map (hinj _), ?_⟩
  intro p hp1 hp2
  simp only [List.mem_map] at hp1 hp2
  obtain ⟨z1, _, hz1⟩ := hp1
  obtain ⟨z2, _, hz2⟩ := hp2
  rw [← hz1] at hz2
  have := congrArg Prod.snd hz2
  simp at this

theorem reach_stRaised : Reaches inpFNF (initState 1) stRaised := by
  have s1 : SnipeStep inpFNF (.entryGo 0) (initState 1) stRun :=
    SnipeStep.entryGo 0 _ _ rfl rfl rfl (by
      show (fun _ => Phase.running) = _
      funext i; fin_cases i; simp [initState, Function.update_apply])
  have s2 : SnipeStep inpFNF (.callRaise 0) stRun stRaised :=
    SnipeStep.callRaise 0 _ _ rfl rfl rfl (by
      show (fun _ => Phase.finished .raised) = _
      funext i; fin_cases i; simp [stRun, Function.update_apply])
  exact Reaches.tail _ (Reaches.tail _ (Reaches.refl _) s1) s2

theorem step_handle : SnipeStep inpFNF (.handleRaise 0) stRaised stSet :=
  SnipeStep.handleRaise 0 _ _ rfl rfl rfl

theorem step_skip : SnipeStep inpFNF (.entrySkip 0) stEntrySet stSkipped :=
  SnipeStep.entrySkip 0 _ _ rfl rfl rfl (by
    show (fun _ => Phase.finished .skipped) = _
    funext i; fin_cases i; simp [stEntrySet, Function.update_apply])

/-! ## Claim C1 -/

/-- C1 counterexample: the claim "the cancellation signal is set only by
a successful acquisition attempt" is false on the code.  With one worker
whose `gcloud` invocation raises `FileNotFoundError`, the main thread's
handler on source line 155 performs the unset-to-set transition of
`stop_event`, and that step is not a success set of any attempt. -/
theorem C1_claim_false : ¬ C1Stated := by
  intro h
  obtain ⟨i, hi⟩ :=
    h 1 inpFNF (.handleRaise 0) stRaised stSet reach_stRaised step_handle rfl rfl
  exact absurd hi (by simp)

/-- C1 (amended): the cancellation signal is write-once-true — every step
preserves a set signal, so subsequent sets are no-ops and at most one
step of any execution flips it from unset to set — and the only steps
that flip it are either a success set by an attempt that observed a zero
exit status (line 103) or the scheduler's `FileNotFoundError` handler
(line 155). -/
theorem C1_amended {n : Nat} (inp : Fin n → CallRes) (l : SLabel n)
    (s s' : SnipeState n) (hstep : SnipeStep inp l s s') :
    (s.stopEvent = true → s'.stopEvent = true) ∧
    (s.stopEvent = false → s'.stopEvent = true →
      (∃ (i : Fin n) (err : String), l = SLabel.winSet i ∧ inp i = CallRes.ok 0 err) ∨
      (∃ i : Fin n, l = SLabel.handleRaise i ∧ s.phase i = Phase.finished .raised)) := by
  cases hstep with
  | entrySkip i s s' h1 h2 hs hp =>
    exact ⟨fun h => hs.trans h, fun h h' => absurd (hs.symm.trans h') (by simp [h])⟩
  | entryGo i s s' h1 h2 hs hp =>
    exact ⟨fun h => hs.trans h, fun h h' => absurd (hs.symm.trans h') (by simp [h])⟩
  | callRaise i s s' h1 h2 hs hp =>
    exact ⟨fun h => hs.trans h, fun h h' => absurd (hs.symm.trans h') (by simp [h])⟩
  | callRet i s s' rc err h1 h2 hs hp =>
    exact ⟨fun h => hs.trans h, fun h h' => absurd (hs.symm.trans h') (by simp [h])⟩
  | recheckStop i s s' h1 h2 hs hp =>
    exact ⟨fun h => hs.trans h, fun h h' => absurd (hs.symm.trans h') (by simp [h])⟩
  | recheckGo i s s' h1 h2 hs hp =>
    exact ⟨fun h => hs.trans h, fun h h' => absurd (hs.symm.trans h') (by simp [h])⟩
  | winSet i s s' err h1 h2 hs hp =>
    exact ⟨fun _ => hs, fun _ _ => Or.inl ⟨i, err, rfl, h2⟩⟩
  | failKeep i s s' rc err h1 h2 h3 hs hp =>
    exact ⟨fun h => hs.trans h, fun h h' => absurd (hs.symm.trans h') (by simp [h])⟩
  | handleRaise i s s' h1 hs hp =>
    exact ⟨fun _ => hs, fun _ _ => Or.inr ⟨i, rfl, h1⟩⟩

/-- C1 witness: the amended theorem applied to the concrete handler step
of the counterexample execution. -/
theorem C1_amended_witness :
    (stRaised.stopEvent = true → stSet.stopEvent = true) ∧
    (stRaised.stopEvent = false → stSet.stopEvent = true →
      (∃ (i : Fin 1) (err : String),
        SLabel.handleRaise 0 = SLabel.winSet i ∧ inpFNF i = CallRes.ok 0 err) ∨
      (∃ i : Fin 1,
        SLabel.handleRaise (0 : Fin 1) = SLabel.handleRaise i ∧
        stRaised.phase i = Phase.finished .raised)) :=
  C1_amended inpFNF (.handleRaise 0) stRaised stSet step_handle

/-! ## Claim C2 -/

/-- C2: for every attempt, (a) if the signal is already set when the
attempt is at its start check, its only move is straight to the synthetic
`skipped` outcome — a worker only enters the blocking provisioning call
from `entry` with the signal observed clear, and a finished attempt never
moves again, so a skipped attempt never invokes the collaborator, and
`skipped` is distinct from both the `success` and the `failed` outcomes;
(b) if the signal is found set when the blocking call has returned, the
attempt's only move is to the `discarded` outcome — not to `success`,
whatever the call's exit status was — and the step leaves the signal
untouched. -/
theorem C2_executor {n : Nat} (inp : Fin n → CallRes) (l : SLabel n)
    (s s' : SnipeState n) (i : Fin n) (hstep : SnipeStep inp l s s') :
    (s.phase i = Phase.entry → s.stopEvent = true → s'.phase i ≠ Phase.entry →
      s'.phase i = Phase.finished .skipped ∧ s'.stopEvent = true) ∧
    (s'.phase i = Phase.running →
      s.phase i = Phase.running ∨ (s.phase i = Phase.entry ∧ s.stopEvent = false)) ∧
    (∀ o, s.phase i = Phase.finished o → s'.phase i = Phase.finished o) ∧
    (s.phase i = Phase.returned → s.stopEvent = true → s'.phase i ≠ Phase.returned →
      s'.phase i = Phase.finished .discarded ∧ s'.stopEvent = s.stopEvent) ∧
    AttemptOutcome.skipped ≠ AttemptOutcome.success ∧
    AttemptOutcome.skipped ≠ AttemptOutcome.failed ∧
    AttemptOutcome.discarded ≠ AttemptOutcome.success := by
  refine ⟨?_, ?_, ?_, ?_, by simp, by simp, by simp⟩ <;> (
    cases hstep with
    | entrySkip j s s' h1 h2 hs hp =>
      intro hi; by_cases hij : i = j <;> simp_all [Function.update_apply]
    | entryGo j s s' h1 h2 hs hp =>
      intro hi; by_cases hij : i = j <;> simp_all [Function.update_apply]
    | callRaise j s s' h1 h2 hs hp =>
      intro hi; by_cases hij : i = j <;> simp_all [Function.update_apply]
    | callRet j s s' rc err h1 h2 hs hp =>
      intro hi; by_cases hij : i = j <;> simp_all [Function.update_apply]
    | recheckStop j s s' h1 h2 hs hp =>
      intro hi; by_cases hij : i = j <;> simp_all [Function.update_apply]
    | recheckGo j s s' h1 h2 hs hp =>
      intro hi; by_cases hij : i = j <;> simp_all [Function.update_apply]
    | winSet j s s' err h1 h2 hs hp =>
      intro hi; by_cases hij : i = j <;> simp_all [Function.update_apply]
    | failKeep j s s' rc err h1 h2 h3 hs hp =>
      intro hi; by_cases hij : i = j <;> simp_all [Function.update_apply]
    | handleRaise j s s' h1 hs hp =>
      intro hi; simp_all)

/-- C2 witness: the theorem applied to a concrete skip step — one worker,
signal already set at its start check. -/
theorem C2_executor_witness :
    stSkipped.phase 0 = Phase.finished .skipped ∧ stSkipped.stopEvent = true :=
  (C2_executor inpFNF (.entrySkip 0) stEntrySet stSkipped 0 step_skip).1 rfl rfl (by
    intro h
    exact absurd h (by simp [stSkipped]))

/-! ## Claim C3 -/

/-- C3 counterexample: the code's classifier does not match the spec's
case-insensitive reference classifier.  On stderr `"RESOURCES invalid"`
the spec's rule 1 (case-insensitive "resources") gives a retryable
failure, but line 109 of the source matches case-sensitively, falls
through to the case-insensitive "invalid" test on line 113, and returns
the candidate-scoped fatal outcome — a different `Outcome`, not merely a
different message. -/
theorem C3_claim_false :
    classify false "RESOURCES invalid" = Outcome.fatalCandidate ∧
    classifySpec false "RESOURCES invalid" = Outcome.retryCapacity ∧
    (classify false "RESOURCES invalid").isRetryable = false ∧
    (classifySpec false "RESOURCES invalid").isRetryable = true ∧
    ¬ C3Stated := by
  refine ⟨by decide, by decide, by decide, by decide, fun h => ?_⟩
  exact absurd (h false "RESOURCES invalid") (by decide)

/-- C3 (amended): a true exit status always yields Success regardless of
stderr; otherwise the first marker group ("resources" / "exhausted" /
"not available") is matched case-SENSITIVELY against the raw stderr and
yields a retryable failure, then "quota" (case-insensitive) yields a
retryable failure with its distinct message, then "invalid" or
"not found" (case-insensitive) yields a fatal failure scoped to the
candidate, and anything else yields a generic retryable failure; the
spec's own three example vectors all hold. -/
theorem C3_amended :
    (∀ s, classify true s = Outcome.success) ∧
    (∀ b s, classify b s = classifySpecCS b s) ∧
    classify false "ERROR: resources exhausted" = Outcome.retryCapacity ∧
    classify false "Quota exceeded for metric" = Outcome.retryQuota ∧
    classify false "Invalid value for field zone" = Outcome.fatalCandidate :=
  ⟨fun _ => rfl, fun _ _ => rfl, by decide, by decide, by decide⟩

/-! ## Claim C4 -/

/-- C4 counterexample: with candidates available and the provisioning
tool missing in wave 1, the run does abort immediately (only wave 1
runs), but `main` merely breaks out of its loop and returns, so the
process exit code is 0 — not non-zero as the claim states. -/
theorem C4_claim_false :
    mainModel tasksOne (-1) 120 (fun _ => WaveResult.infraMissing) 5 =
      some ⟨TermReason.infraMissing, 0, [MainEvent.wave 1]⟩ ∧
    ¬ C4Stated := by
  refine ⟨by decide, fun h => ?_⟩
  have := h tasksOne (-1) 120 (fun _ => WaveResult.infraMissing) 5
    ⟨TermReason.infraMissing, 0, [MainEvent.wave 1]⟩ (by decide) rfl (by decide)
  exact this.2 rfl

/-- C4 (amended): if the provisioning tool itself cannot be invoked
(`FileNotFoundError` from a worker), the scheduler aborts all remaining
waves immediately — whatever wave the error occurs in, the loop stops
right there, with that wave as its only further event and no further
sleep — but the process then terminates with exit code 0 (only the
no-candidates path exits non-zero). -/
theorem C4_amended :
    (∀ (mr : Int) (d : Nat) (waves : Nat → WaveResult) (count fuel : Nat),
      waves (count + 1) = WaveResult.infraMissing →
      mainLoop mr d waves (fuel + 1) count =
        some (TermReason.infraMissing, [MainEvent.wave (count + 1)])) ∧
    (∀ (tasks : List (String × String)) (mr : Int) (d : Nat)
      (waves : Nat → WaveResult) (fuel : Nat) (res : RunRes),
      tasks ≠ [] → mainModel tasks mr d waves fuel = some res →
      res.exitCode = 0) := by
  constructor
  · intro mr d waves count fuel h
    rw [mainLoop]
    simp only [h]
  · intro tasks mr d waves fuel res htasks h
    rw [mainModel, if_neg htasks] at h
    rcases hl : mainLoop mr d waves fuel 0 with _ | ⟨r, evs⟩ <;> rw [hl] at h
    · exact absurd h (by simp)
    · cases h with
      | refl => rfl

/-- C4 witness: the amended theorem applied at an infra failure in the
first wave of a one-candidate run. -/
theorem C4_amended_witness :
    mainLoop (-1) 120 (fun _ => WaveResult.infraMissing) 1 0 =
      some (TermReason.infraMissing, [MainEvent.wave 1]) ∧
    (⟨TermReason.infraMissing, 0, [MainEvent.wave 1]⟩ : RunRes).exitCode = 0 :=
  ⟨C4_amended.1 (-1) 120 (fun _ => WaveResult.infraMissing) 0 0 rfl,
   C4_amended.2 tasksOne (-1) 120 (fun _ => WaveResult.infraMissing) 5
     ⟨TermReason.infraMissing, 0, [MainEvent.wave 1]⟩ (by decide) (by decide)⟩

/-! ## Claim C5 -/

/-- C5 counterexample: not every discovery failure is swallowed.  When
the `gcloud` executable itself is missing, `subprocess.run` raises
`FileNotFoundError`, which the `except subprocess.CalledProcessError`
clause of `run_gcloud_json` does not catch, so the error propagates out
of the discovery layer instead of an empty sequence being returned. -/
theorem C5_claim_false :
    run_gcloud_json SubprocOutcome.notFound (fun _ => none) =
      PyResult.exn PyExn.fileNotFoundError ∧
    ¬ C5Stated := by
  refine ⟨rfl, fun h => ?_⟩
  obtain ⟨items, hi⟩ := h SubprocOutcome.notFound (fun _ => none)
  simp [run_gcloud_json] at hi

/-- C5 (amended): a discovery command that runs and exits non-zero
(`CalledProcessError`) is swallowed: the query returns the empty list
rather than propagating, and the failing resource kind therefore
contributes zero candidates; only an uninvocable tool
(`FileNotFoundError`) or malformed JSON escapes this layer. -/
theorem C5_amended (rc : Nat) (out : String)
    (parse : String → Option (List DiscItem)) (h : rc ≠ 0) :
    run_gcloud_json (SubprocOutcome.completed rc out) parse = PyResult.ok [] ∧
    get_zones_for_gpu (SubprocOutcome.completed rc out) parse = PyResult.ok [] := by
  have h1 : run_gcloud_json (SubprocOutcome.completed rc out) parse = PyResult.ok [] := by
    rw [run_gcloud_json]
    rw [if_neg (by simp [h])]
  refine ⟨h1, ?_⟩
  rw [get_zones_for_gpu, h1]
  decide

/-- C5 witness: the amended theorem at a concrete failed query. -/
theorem C5_amended_witness :
    run_gcloud_json (SubprocOutcome.completed 1 "boom") (fun _ => none) =
      PyResult.ok [] ∧
    get_zones_for_gpu (SubprocOutcome.completed 1 "boom") (fun _ => none) =
      PyResult.ok [] :=
  C5_amended 1 "boom" (fun _ => none) (by decide)

/-! ## Claim C6 -/

/-- C6: if discovery yields zero candidates across all resource kinds,
the task list is empty and the scheduler terminates with the
no-candidates reason and process exit code 1, with no wave event
whatsoever — no attempt is ever submitted. -/
theorem C6_no_candidates (disc : String → List DiscItem)
    (h : ∀ g, zonesOf (disc g) = []) (mr : Int) (d : Nat)
    (waves : Nat → WaveResult) (fuel : Nat) :
    buildTasks disc = [] ∧
    mainModel (buildTasks disc) mr d waves fuel =
      some ⟨TermReason.noCandidates, 1, []⟩ := by
  have hb : buildTasks disc = [] := by
    simp [buildTasks, GPU_CONFIG, h]
  exact ⟨hb, by rw [hb, mainModel, if_pos rfl]⟩

/-- C6 witness: the theorem at the all-empty discovery response. -/
theorem C6_no_candidates_witness :
    buildTasks (fun _ => []) = [] ∧
    mainModel (buildTasks (fun _ => [])) (-1) 120
      (fun _ => WaveResult.allRetryable) 0 =
      some ⟨TermReason.noCandidates, 1, []⟩ :=
  C6_no_candidates (fun _ => []) (fun _ => by simp [zonesOf, sortStr]) (-1) 120
    (fun _ => WaveResult.allRetryable) 0

/-! ## Claim C7 -/

/-- C7: with a wave cap of 3 and every wave coming back all-retryable,
the scheduler runs exactly waves 1, 2 and 3, sleeping the configured
backoff between consecutive waves and not after the last, and terminates
normally (exit code 0) with the exhausted-retries reason, for any
remaining fuel. -/
theorem C7_three_waves (tasks : List (String × String)) (htasks : tasks ≠ [])
    (d : Nat) (waves : Nat → WaveResult)
    (hw : ∀ k, waves k = WaveResult.allRetryable) (fuel : Nat) :
    mainModel tasks 3 d waves (fuel + 3) =
      some ⟨TermReason.exhausted, 0,
        [MainEvent.wave 1, MainEvent.sleep d, MainEvent.wave 2,
         MainEvent.sleep d, MainEvent.wave 3]⟩ := by
  rw [mainModel, if_neg htasks]
  rw [mainLoop]
  simp only [hw]
  norm_num
  rw [mainLoop]
  simp only [hw]
  norm_num
  rw [mainLoop]
  simp only [hw]
  norm_num

/-- C7 witness: the theorem at a concrete one-candidate task list with
backoff 120 and no spare fuel. -/
theorem C7_three_waves_witness :
    mainModel tasksOne 3 120 (fun _ => WaveResult.allRetryable) (0 + 3) =
      some ⟨TermReason.exhausted, 0,
        [MainEvent.wave 1, MainEvent.sleep 120, MainEvent.wave 2,
         MainEvent.sleep 120, MainEvent.wave 3]⟩ :=
  C7_three_waves tasksOne (by decide) 120 (fun _ => WaveResult.allRetryable)
    (fun _ => rfl) 0

/-! ## Claim C8 -/

/-- C8: the candidate space builder is idempotent and deduplicating —
identical discovery responses produce identical task lists, and the
produced list contains no duplicate (zone, gpu) pair. -/
theorem C8_builder (disc disc' : String → List DiscItem)
    (h : ∀ g, disc g = disc' g) :
    buildTasks disc = buildTasks disc' ∧ (buildTasks disc).Nodup :=
  ⟨by rw [show disc = disc' from funext h], buildTasks_nodup disc⟩

/-- C8 witness: the theorem at the empty discovery response. -/
theorem C8_builder_witness :
    buildTasks (fun _ => []) = buildTasks (fun _ => []) ∧
    (buildTasks (fun _ => [])).Nodup :=
  C8_builder (fun _ => []) (fun _ => []) (fun _ => rfl)

/-! ## Claim C9 -/

/-- C9: zone normalization keeps only the trailing short name: on the
spec's example URL it returns `"europe-west1-b"`, and in general any
qualifier ending in a slash is discarded in front of a slash-free tail. -/
theorem C9_normalize :
    normalizeZone "https://.../compute/v1/projects/p/zones/europe-west1-b" =
      "europe-west1-b" ∧
    (∀ s t : String, '/' ∉ t.data → normalizeZone (s ++ "/" ++ t) = t) :=
  ⟨by decide, fun s t h => normalizeZone_strip s t h⟩

/-- C9 witness: the general clause of the theorem at a concrete split. -/
theorem C9_normalize_witness :
    normalizeZone ("projects/p/zones" ++ "/" ++ "europe-west1-b") =
      "europe-west1-b" :=
  C9_normalize.2 "projects/p/zones" "europe-west1-b" (by decide)

/-! ## Claim C10 -/

/-- C10: every candidate pair the scheduler can submit — any permutation
of the built task list, since waves shuffle in place — carries a gpu kind
that is a key of `GPU_CONFIG`, so the `GPU_CONFIG[gpu_type]` lookup in
`create_vm` (line 79) never raises `KeyError`. -/
theorem C10_lookup_safe (disc : String → List DiscItem)
    (tasks : List (String × String)) (hperm : tasks.Perm (buildTasks disc))
    (z g : String) (hmem : (z, g) ∈ tasks) :
    (machineTypeFor g).isSome = true := by
  have hmem' : (z, g) ∈ buildTasks disc := hperm.mem_iff.mp hmem
  simp only [buildTasks, GPU_CONFIG, List.map_cons, List.map_nil, List.flatMap_cons,
    List.flatMap_nil, List.append_nil, List.mem_append, List.mem_map] at hmem'
  rcases hmem' with ⟨z', _, hz⟩ | ⟨z', _, hz⟩ <;>
    · obtain ⟨rfl, rfl⟩ :=
        Prod.mk.injEq .. ▸ And.intro (congrArg Prod.fst hz) (congrArg Prod.snd hz)
      decide

/-- C10 witness: the theorem at a concrete discovery response whose
build produces the pair ("europe-west1-b", "nvidia-l4"). -/
theorem C10_lookup_safe_witness : (machineTypeFor "nvidia-l4").isSome = true :=
  C10_lookup_safe discOne (buildTasks discOne) (List.Perm.refl _)
    "europe-west1-b" "nvidia-l4" (by decide)

end Sniping
